import Mathlib

/-!
# Verification of the `rl-counting-agents` environment (`src/SingleAgentEnv.py`)

A shallow embedding of the counting-environment code:

* the shared action dictionary and the per-component claiming loops
  (`SingleAgentEnv.__init__` lines 104-133, `FingerLayer.__init__` lines
  612-623, `ExternalRepresentation.__init__` lines 648-660);
* the finger layers and their `step` (lines 592-640);
* the external representation canvas and `draw_point` (lines 643-668);
* the scene generator (`_generate_observation` and its helpers, lines
  232-423), parameterised over the random draws via explicit streams and
  a fuel bound for the retry loops (the Python loops can in principle run
  forever; a `none` result marks a run that never terminates);
* the action-selection policies (lines 442-489) with the random draws as
  explicit inputs;
* the environment `step`/`reset` orchestration (lines 158-213 and
  532-562), with the reward collaborator (`src.Reward`, injected as a
  constructor argument in the Python code) as a function parameter, and
  the epsilon parameter of lines 167-172 passed in (its exponential-decay
  computation is embedded separately, over `ℝ`, as `get_exp_decaying_eps`
  and `step_eps`);
* the training-loop terminal-transition handling
  (`training_loop_v1.py` lines 79-88) as `push_next_state`.

Machine floats are modelled by `ℚ` wherever only field operations,
comparisons, `abs` and `max` on small literals occur (these are exact in
both models), and by `ℝ` for the exponential-decay profile which uses
`exp`/`log`.
-/

namespace RLCounting

/-- A grid coordinate.  The Python code uses (possibly negative) integer
pairs when probing neighbours, so cells are modelled as `ℤ × ℤ`. -/
abbrev Cell := ℤ × ℤ

/-- A square layer of the observation, one `ℚ` value (0 or 1) per cell,
modelling the `dim x dim` numpy arrays. -/
abbrev Grid := ℕ → ℕ → ℚ

/-- The all-zero layer (`np.zeros((dim, dim))`). -/
def zeroGrid : Grid := fun _ _ => 0

/-- A layer which is 1 exactly at `(px, py)` and 0 elsewhere
(`np.zeros(...)` followed by `layer[px, py] = 1`). -/
def oneHot (px py : ℕ) : Grid := fun i j => if i = px ∧ j = py then 1 else 0

/-- `b` is one of the four edge-neighbours of `a` (4-adjacency). -/
def adjacent (a b : Cell) : Prop :=
  b = (a.1 + 1, a.2) ∨ b = (a.1, a.2 + 1) ∨ b = (a.1 - 1, a.2) ∨ b = (a.1, a.2 - 1)

instance (a b : Cell) : Decidable (adjacent a b) := by
  unfold adjacent; infer_instance

/-! ## The shared action dictionary

`SingleAgentEnv.__init__` creates `actions_dict = {n: '' for n in
range(n_actions)}` and each component claims the first still-empty codes
for its named actions (`FingerLayer.__init__` lines 615-623 and
`ExternalRepresentation.__init__` lines 655-660 run the same loop).  The
dictionary, whose keys are exactly `0, ..., n_actions-1` in insertion
order, is modelled as a `List String` indexed by the code. -/

/-- One claiming loop (`for k, v in env_actions_dict.items(): if v == ''
and i < len(actions): ...`): walk the codes in ascending order, writing
the next unclaimed name into each empty slot; return the updated
dictionary together with the list of codes claimed (`self.action_codes`,
in ascending order).  `k` is the code of the first slot of `dict`. -/
def claimActions : List String → List String → ℕ → List String × List ℕ
  | [], _, _ => ([], [])
  | v :: rest, [], k =>
    let r := claimActions rest [] (k + 1)
    (v :: r.1, r.2)
  | v :: rest, a :: as, k =>
    if v = "" then
      let r := claimActions rest as (k + 1)
      (a :: r.1, k :: r.2)
    else
      let r := claimActions rest (a :: as) (k + 1)
      (v :: r.1, r.2)

/-- The label-filling loop of `SingleAgentEnv.__init__` (lines 128-133):
every remaining empty slot receives the numeric-label strings
`str(label)` for `label = 1, 2, ...` in ascending code order. -/
def fillLabels : List String → ℕ → List String
  | [], _ => []
  | v :: rest, label =>
    if v = "" then toString label :: fillLabels rest (label + 1)
    else v :: fillLabels rest label

/-- The four directional action names of a finger layer
(`[layer_name + a for a in ['_left', '_right', '_up', '_down']]`). -/
def fingerActionNames (layer_name : String) : List String :=
  [layer_name ++ "_left", layer_name ++ "_right", layer_name ++ "_up", layer_name ++ "_down"]

/-- The action names of the external representation (`['mod_point']`). -/
def extActionNames : List String := ["mod_point"]

/-- The registry part of `SingleAgentEnv.__init__` (lines 104-133): the
components claim their named actions in construction order (external
representation first, then the scene finger, then the repr finger), the
remaining codes are filled with numeric labels.  Returns the dictionary
before label filling together with the three claimed code lists. -/
def envRegistryNamed (n_actions : ℕ) : List String × List ℕ × List ℕ × List ℕ :=
  let d0 := List.replicate n_actions ""
  let re := claimActions d0 extActionNames 0
  let rs := claimActions re.1 (fingerActionNames "scene") 0
  let rr := claimActions rs.1 (fingerActionNames "repr") 0
  (rr.1, re.2, rs.2, rr.2)

/-- The completed action dictionary after label filling (line 128-133). -/
def envActionsDict (n_actions : ℕ) : List String :=
  fillLabels (envRegistryNamed n_actions).1 1

/-- The codes claimed by the external representation at construction. -/
def envExtCodes (n_actions : ℕ) : List ℕ := (envRegistryNamed n_actions).2.1

/-- The codes claimed by the scene finger at construction. -/
def envSceneCodes (n_actions : ℕ) : List ℕ := (envRegistryNamed n_actions).2.2.1

/-- The codes claimed by the repr finger at construction. -/
def envReprCodes (n_actions : ℕ) : List ℕ := (envRegistryNamed n_actions).2.2.2

/-! ## Finger layers (`FingerLayer`, lines 592-640) -/

/-- The state of one finger layer: grid side, clamp bounds, position,
derived one-hot layer, and the action codes claimed at construction. -/
structure FingerLayer where
  layer_dim : ℕ
  max_x : ℕ
  max_y : ℕ
  pos_x : ℕ
  pos_y : ℕ
  fingerlayer : Grid
  action_codes : List ℕ

/-- `FingerLayer.__init__` (lines 597-623).  The initial position is
`(0, 0)`, or uniform in `[0, layer_dim - 1]²` when
`random_finger_position` is set; the random draws are the inputs
`rx, ry` (reduced into range as `randint(0, layer_dim - 1)` does).  The
constructor claims codes for its four directional actions from the
shared dictionary and returns the updated dictionary alongside. -/
def FingerLayer.init (layer_name : String) (layer_dim : ℕ) (dict : List String)
    (random_finger_position : Bool) (rx ry : ℕ) : FingerLayer × List String :=
  let px := if random_finger_position then rx % layer_dim else 0
  let py := if random_finger_position then ry % layer_dim else 0
  let r := claimActions dict (fingerActionNames layer_name) 0
  ({ layer_dim := layer_dim
     max_x := layer_dim - 1
     max_y := layer_dim - 1
     pos_x := px
     pos_y := py
     fingerlayer := oneHot px py
     action_codes := r.2 }, r.1)

/-- `FingerLayer.step` (lines 625-640): resolve the action code through
`actions_dict`, compare the resulting string against the four bare
direction names, move with saturating clamp, and recompute the one-hot
layer.  (The registered names are `layer_name + '_left'` etc., so in the
environment as built none of the four comparisons can succeed.) -/
def FingerLayer.step (f : FingerLayer) (move_action : ℕ) (actions_dict : List String) :
    FingerLayer :=
  let move_action_str := actions_dict.getD move_action ""
  let p : ℕ × ℕ :=
    if move_action_str = "right" then
      (if f.pos_x < f.max_x then f.pos_x + 1 else f.pos_x, f.pos_y)
    else if move_action_str = "left" then
      (if f.pos_x > 0 then f.pos_x - 1 else f.pos_x, f.pos_y)
    else if move_action_str = "up" then
      (f.pos_x, if f.pos_y > 0 then f.pos_y - 1 else f.pos_y)
    else if move_action_str = "down" then
      (f.pos_x, if f.pos_y < f.max_y then f.pos_y + 1 else f.pos_y)
    else (f.pos_x, f.pos_y)
  { f with pos_x := p.1, pos_y := p.2, fingerlayer := oneHot p.1 p.2 }

/-! ## External representation (`ExternalRepresentation`, lines 643-668) -/

/-- The canvas the agent writes on, with the action codes claimed at
construction. -/
structure ExternalRepresentation where
  layer_dim : ℕ
  external_representation : Grid
  action_codes : List ℕ

/-- `ExternalRepresentation.__init__` (lines 648-660): zero canvas, and
the claiming loop for the single `'mod_point'` action. -/
def ExternalRepresentation.init (layer_dim : ℕ) (dict : List String) :
    ExternalRepresentation × List String :=
  let r := claimActions dict extActionNames 0
  ({ layer_dim := layer_dim
     external_representation := zeroGrid
     action_codes := r.2 }, r.1)

/-- `ExternalRepresentation.draw_point` (lines 665-668):
`ext[pos] += abs(ext[pos] - 1)`, i.e. a 0 cell becomes 1 and a 1 cell
stays 1. -/
def ExternalRepresentation.draw_point (e : ExternalRepresentation) (pos : ℕ × ℕ) :
    ExternalRepresentation :=
  { e with
    external_representation := fun i j =>
      if i = pos.1 ∧ j = pos.2 then
        e.external_representation i j + |e.external_representation i j - 1|
      else e.external_representation i j }

/-! ## Scene generation (`_generate_observation` and helpers, lines 232-423)

Randomness is passed in explicitly: `sizes n` drives the initial size
draw for the `n`-th object, `anchors t` drives the `t`-th anchor draw of
`_generate_square` (each reduced into the range its `np.random.randint`
call uses).  The two retry loops of the Python code are given a fuel
bound; a `none` result corresponds to a run of the Python code that
never terminates and hence never produces a scene. -/

/-- `_check_squares_intersection_adjacency` (lines 351-381): true iff the
new square's cells intersect the already-placed cells, or some new cell
has an already-placed cell among its four edge-neighbours. -/
def check_squares_intersection_adjacency (picture new_square : List Cell) : Bool :=
  decide (∃ c ∈ picture, c ∈ new_square) ||
    decide (∃ c ∈ new_square,
      ((c.1 + 1, c.2) ∈ picture ∨ (c.1, c.2 + 1) ∈ picture ∨
       (c.1 - 1, c.2) ∈ picture ∨ (c.1, c.2 - 1) ∈ picture))

/-- `_point_out_of_picture` (lines 419-423). -/
def point_out_of_picture (p : Cell) : Bool := p.1 < 0 || p.2 < 0

/-- The cells of a `size × size` square with top-left corner `p`
(the two `for` loops of `_generate_square`, lines 342-347). -/
def squareCells (p : Cell) (size : ℕ) : List Cell :=
  (List.range size).flatMap fun x => (List.range size).map fun y => (p.1 + x, p.2 + y)

/-- `_check_square_can_fit` (lines 383-417): scan every `size × size`
window of the grid; the square fits if some window's cells and their
in-picture edge-neighbourhood are all free of already-placed cells. -/
def check_square_can_fit (obs_dim size : ℕ) (picture : List Cell) : Bool :=
  (List.range ((obs_dim : ℤ) - size + 1).toNat).any fun col_start =>
    (List.range ((obs_dim : ℤ) - size + 1).toNat).any fun row_start =>
      let ipts : List Cell := (List.range size).flatMap fun x =>
        (List.range size).map fun y => ((col_start + x : ℕ), (row_start + y : ℕ))
      let apts : List Cell :=
        (ipts.flatMap fun c => [(c.1, c.2 + 1), (c.1, c.2 - 1), (c.1 - 1, c.2), (c.1 + 1, c.2)]).filter
          fun q => !point_out_of_picture q && !decide (q ∈ ipts)
      decide (∀ c ∈ ipts, c ∉ picture) && decide (∀ c ∈ apts, c ∉ picture)

/-- The anchor-retry loop of `_generate_square` (lines 326-340): sample
top-left corners `np.random.randint(0, obs_dim + 1 - size)` (per axis)
until the corner itself neither hits nor touches the placed cells;
return it with the next anchor-stream index. -/
def generate_square_anchor : ℕ → ℕ → ℕ → List Cell → (ℕ → ℕ × ℕ) → ℕ →
    Option (Cell × ℕ)
  | 0, _, _, _, _, _ => none
  | fuel + 1, obs_dim, size, picture, anchors, t =>
    let raw := anchors t
    let p : Cell := ((raw.1 % (obs_dim + 1 - size) : ℕ), (raw.2 % (obs_dim + 1 - size) : ℕ))
    if check_squares_intersection_adjacency picture [p] then
      generate_square_anchor fuel obs_dim size picture anchors (t + 1)
    else some (p, t + 1)

/-- The placement-retry loop of `_generate_observation` (lines 290-296):
generate a square via `_generate_square`, accept it only if the whole
square neither hits nor touches the placed cells, else retry. -/
def place_square : ℕ → ℕ → ℕ → List Cell → (ℕ → ℕ × ℕ) → ℕ →
    Option (List Cell × ℕ)
  | 0, _, _, _, _, _ => none
  | fuel + 1, obs_dim, size, picture, anchors, t =>
    match generate_square_anchor (fuel + 1) obs_dim size picture anchors t with
    | none => none
    | some (p, t1) =>
      let sq := squareCells p size
      if check_squares_intersection_adjacency picture sq then
        place_square fuel obs_dim size picture anchors t1
      else some (sq, t1)

/-- The size-shrinking loop of `_generate_observation` (lines 279-310):
if a square of the current size can fit, place one; otherwise shrink the
size by one, and when it reaches 0 report the early ending
(`some (none, t)`). -/
def choose_place (fuel obs_dim : ℕ) (picture : List Cell) (anchors : ℕ → ℕ × ℕ) :
    ℕ → ℕ → Option (Option (List Cell) × ℕ)
  | 0, t => some (none, t)
  | size + 1, t =>
    if check_square_can_fit obs_dim (size + 1) picture then
      (place_square fuel obs_dim (size + 1) picture anchors t).map fun r => (some r.1, r.2)
    else if size = 0 then some (none, t)
    else choose_place fuel obs_dim picture anchors size t

/-- The object loop of `_generate_observation` (lines 264-312).
`remaining` counts the objects still to draw out of `n_objects`; on an
early ending at (1-based) object `n = n_objects - remaining + 1` the
label is `n_objects - ((n_objects - n) + 1)`, the Python
`objects_drawn` arithmetic; otherwise the label is `n_objects`.
Returns the committed objects (each a list of cells) and the label. -/
def gen_loop (fuel obs_dim max_object_size : ℕ) (random_object_size : Bool)
    (sizes : ℕ → ℕ) (anchors : ℕ → ℕ × ℕ) (n_objects : ℕ) :
    ℕ → List (List Cell) → ℕ → Option (List (List Cell) × ℤ)
  | 0, objs, _ => some (objs, (n_objects : ℤ))
  | remaining + 1, objs, t =>
    let n := n_objects - remaining
    let object_size := if random_object_size then sizes n % max_object_size + 1 else 1
    match choose_place fuel obs_dim objs.flatten anchors object_size t with
    | none => none
    | some (none, _) => some (objs, (n_objects : ℤ) - ((n_objects : ℤ) - n) - 1)
    | some (some sq, t1) => gen_loop fuel obs_dim max_object_size random_object_size
        sizes anchors n_objects remaining (objs ++ [sq]) t1

/-- `_generate_observation` (lines 232-315): choose the object count
(random in `[1, max_episode_objects]` via `nobj_seed`, or fixed), run
the object loop, and return the committed objects with the label
`obs_label`. -/
def generate_observation (obs_dim max_object_size max_episode_objects : ℕ)
    (generate_random_nobj random_object_size : Bool) (nobj_seed : ℕ)
    (sizes : ℕ → ℕ) (anchors : ℕ → ℕ × ℕ) (fuel : ℕ) :
    Option (List (List Cell) × ℤ) :=
  let n_objects := if generate_random_nobj then nobj_seed % max_episode_objects + 1
    else max_episode_objects
  gen_loop fuel obs_dim max_object_size random_object_size sizes anchors n_objects
    n_objects [] 0

/-- The grid-filling loop of `_generate_observation` (lines 314-315):
`self.obs[coordinate] = 1` for every committed coordinate. -/
def gridOfCells (cells : List Cell) : Grid :=
  fun i j => if ((i : ℤ), (j : ℤ)) ∈ cells then 1 else 0

/-! ## Action selection (lines 442-489)

The policy methods consume the network output `q_values` (a vector of
scores) and internal random draws, which the embedding receives as
explicit inputs: `sample` is the `random.random()` draw in `[0, 1)`,
`rand_choice` drives `random.randrange` / the softmax categorical
draw. -/

/-- The first index attaining the maximum of the list, i.e.
`q_values.max(1)[1].item()` on a length-`n` tensor (torch returns the
index of the first maximal value).  `0` on the empty list. -/
def argmaxQ (q_values : List ℚ) : ℕ :=
  (q_values.foldl
    (fun acc x => if x > acc.2.2 then (acc.1 + 1, acc.1, x) else (acc.1 + 1, acc.2))
    ((0 : ℕ), (0 : ℕ), q_values.headD 0)).2.1

/-- `_epsilon_greedy_action_selection` (lines 479-489): with
`sample > eps` the greedy action, otherwise
`random.randrange(len(actions_dict))` (the draw `rand_choice` reduced
into range). -/
def epsilon_greedy_action_selection (actions_dict : List String) (q_values : List ℚ)
    (eps sample : ℚ) (rand_choice : ℕ) : ℕ :=
  if sample > eps then argmaxQ q_values else rand_choice % actions_dict.length

/-- `_softmax_action_selection` (lines 442-477), as a fallible
computation.  `temperature < 0` raises (`Exception`).  `temperature == 0`
calls `self.eps_greedy_modified(q_values, 0)` — but no attribute
`eps_greedy_modified` exists anywhere in the class (the defined method is
`_epsilon_greedy_action_selection`), so this branch raises
`AttributeError` at run time; it is embedded as the corresponding error.
Otherwise a code is sampled from the softmax mass: the outcome of that
categorical draw is the input `choice` (reduced into `[0, len(q_values))`
as `np.random.choice(np.arange(0, n), p=...)` produces). -/
def softmax_action_selection (q_values : List ℚ) (temperature : ℚ) (choice : ℕ) :
    Except String ℕ :=
  if temperature < 0 then
    Except.error "The temperature value must be greater than or equal to 0 "
  else if temperature = 0 then
    Except.error "AttributeError: SingleAgentEnv object has no attribute eps_greedy_modified"
  else
    Except.ok (choice % q_values.length)

/-! ## Exponential epsilon decay (lines 167-172 and 224-226)

These use `np.exp` / `np.log`, so they are modelled over `ℝ`. -/

/-- `_get_exp_decaying_eps` (lines 224-226). -/
noncomputable def get_exp_decaying_eps (exp_dec_steepness n_episodes_per_phase : ℝ)
    (n_episode : ℕ) : ℝ :=
  exp_dec_steepness * Real.exp (-Real.log exp_dec_steepness / n_episodes_per_phase * 6) ^ n_episode /
    exp_dec_steepness

/-- The epsilon value computed by `step` (lines 167-172): the decay value
floored at `1e-6` when `exponential_decay` is set, else the fixed
`default_eps`. -/
noncomputable def step_eps (exponential_decay : Bool)
    (default_eps exp_dec_steepness n_episodes_per_phase : ℝ) (n_episode : ℕ) : ℝ :=
  if exponential_decay then
    max (get_exp_decaying_eps exp_dec_steepness n_episodes_per_phase n_episode) 1e-6
  else default_eps

/-! ## The environment orchestrator (`SingleAgentEnv`, lines 26-213 and 532-568) -/

/-- The configuration fields of `SingleAgentEnv.__init__` that the
embedded dynamics read.  (The curriculum bookkeeping fields
`max_CL_objects`, `CL_phases`, `n_episodes_per_phase` and
`exp_dec_steepness` only feed the `ℝ`-valued epsilon profile above and
rendering, and are not repeated here.) -/
structure EnvConfig where
  obs_dim : ℕ
  max_episode_objects : ℕ
  max_episode_length : ℕ
  n_actions : ℕ
  max_object_size : ℕ
  default_eps : ℚ
  generate_random_nobj : Bool
  random_object_size : Bool
  random_finger_position : Bool

/-- The composite state built by `_build_state` (lines 564-567): the
stack of the four layers. -/
structure CompositeState where
  obs : Grid
  finger_scene : Grid
  finger_repr : Grid
  ext : Grid

/-- The mutable state of a `SingleAgentEnv` instance. -/
structure EnvState where
  cfg : EnvConfig
  obs : Grid
  obs_label : ℤ
  actions_dict : List String
  ext_repr : ExternalRepresentation
  finger_layer_scene : FingerLayer
  finger_layer_repr : FingerLayer
  state : CompositeState
  action_vec : ℕ → ℚ
  step_counter : ℕ
  first_label_output : Bool

/-- `_build_state` (lines 564-567). -/
def build_state (obs : Grid) (fs fr : FingerLayer) (e : ExternalRepresentation) :
    CompositeState :=
  { obs := obs
    finger_scene := fs.fingerlayer
    finger_repr := fr.fingerlayer
    ext := e.external_representation }

/-- `SingleAgentEnv.__init__` (lines 104-157): generate the scene, let
the external representation and the two fingers claim their action codes
from the fresh dictionary, fill the remaining codes with numeric labels,
and build the composite state.  The generation randomness is the same
streams as `generate_observation`; `fsx fsy frx fry` drive the optional
random finger placement. -/
def SingleAgentEnv.init (cfg : EnvConfig) (nobj_seed : ℕ) (sizes : ℕ → ℕ)
    (anchors : ℕ → ℕ × ℕ) (fuel : ℕ) (fsx fsy frx fry : ℕ) : Option EnvState :=
  match generate_observation cfg.obs_dim cfg.max_object_size cfg.max_episode_objects
      cfg.generate_random_nobj cfg.random_object_size nobj_seed sizes anchors fuel with
  | none => none
  | some (objs, label) =>
    let d0 : List String := List.replicate cfg.n_actions ""
    let re := ExternalRepresentation.init cfg.obs_dim d0
    let rs := FingerLayer.init "scene" cfg.obs_dim re.2 cfg.random_finger_position fsx fsy
    let rr := FingerLayer.init "repr" cfg.obs_dim rs.2 cfg.random_finger_position frx fry
    let d4 := fillLabels rr.2 1
    let obs := gridOfCells objs.flatten
    some { cfg := cfg
           obs := obs
           obs_label := label
           actions_dict := d4
           ext_repr := re.1
           finger_layer_scene := rs.1
           finger_layer_repr := rr.1
           state := build_state obs rs.1 rr.1 re.1
           action_vec := fun _ => 0
           step_counter := 0
           first_label_output := true }

/-- `SingleAgentEnv.reset` (lines 532-562): regenerate the scene,
re-construct the external representation and both fingers against the
*current* dictionary (whose slots are all taken, so the constructors'
claiming loops find nothing), rebuild the composite state, zero the step
counter, reset the first-label flag.  The label-filling loop of
`__init__` is not re-run. -/
def SingleAgentEnv.reset (env : EnvState) (nobj_seed : ℕ) (sizes : ℕ → ℕ)
    (anchors : ℕ → ℕ × ℕ) (fuel : ℕ) (fsx fsy frx fry : ℕ) : Option EnvState :=
  match generate_observation env.cfg.obs_dim env.cfg.max_object_size
      env.cfg.max_episode_objects env.cfg.generate_random_nobj
      env.cfg.random_object_size nobj_seed sizes anchors fuel with
  | none => none
  | some (objs, label) =>
    let re := ExternalRepresentation.init env.cfg.obs_dim env.actions_dict
    let rs := FingerLayer.init "scene" env.cfg.obs_dim re.2 env.cfg.random_finger_position fsx fsy
    let rr := FingerLayer.init "repr" env.cfg.obs_dim rs.2 env.cfg.random_finger_position frx fry
    let obs := gridOfCells objs.flatten
    some { env with
           obs := obs
           obs_label := label
           actions_dict := rr.2
           ext_repr := re.1
           finger_layer_scene := rs.1
           finger_layer_repr := rr.1
           state := build_state obs rs.1 rr.1 re.1
           step_counter := 0
           first_label_output := true }

/-- Which component the `elif` chain of `step` (lines 176-188) hands the
chosen action to. -/
inductive DispatchTarget where
  | sceneFinger
  | reprFinger
  | canvas
  | noOwner
  deriving DecidableEq

/-- The branch taken by the dispatch chain of `step` (lines 176-188):
membership of the action code in the components' `action_codes`, in the
order the `elif` chain tests them. -/
def dispatch_target (env : EnvState) (action : ℕ) : DispatchTarget :=
  if action ∈ env.finger_layer_scene.action_codes then .sceneFinger
  else if action ∈ env.finger_layer_repr.action_codes then .reprFinger
  else if action ∈ env.ext_repr.action_codes then .canvas
  else .noOwner

/-- The effect of the dispatch chain of `step` (lines 176-188): step the
owning finger, or mark the canvas at the repr finger's position; leave
the environment unchanged when no component owns the code. -/
def dispatch (env : EnvState) (action : ℕ) : EnvState :=
  match dispatch_target env action with
  | .sceneFinger =>
    { env with finger_layer_scene := env.finger_layer_scene.step action env.actions_dict }
  | .reprFinger =>
    { env with finger_layer_repr := env.finger_layer_repr.step action env.actions_dict }
  | .canvas =>
    { env with ext_repr :=
        env.ext_repr.draw_point (env.finger_layer_repr.pos_x, env.finger_layer_repr.pos_y) }
  | .noOwner => env

/-- The tuple returned by `SingleAgentEnv.step` (line 213). -/
structure StepResult where
  action : ℕ
  next_state : Option CompositeState
  reward : ℚ
  done : Bool
  correct_label : Bool

/-- `SingleAgentEnv.step` (lines 158-213): bump the step counter, select
an action by the epsilon-greedy policy (the epsilon of lines 167-172 is
the argument `eps`, cf. `step_eps`; `sample` and `rand_choice` are the
policy's random draws), dispatch it to the owning component, ask the
reward collaborator (`self.reward.get_reward(self, action,
visit_history)`, here the injected function `get_reward` applied to the
post-dispatch state) for `(reward, correct_label)`, end the episode when
the label is correct or the counter reached `max_episode_length`, rebuild
the action vector and the composite state, and return
`(action, state, reward, done, correct_label)` — the next-state entry of
the returned tuple is always the freshly built composite state. -/
def SingleAgentEnv.step (env : EnvState) (q_values : List ℚ) (eps sample : ℚ)
    (rand_choice : ℕ) (get_reward : EnvState → ℕ → ℚ × Bool) : EnvState × StepResult :=
  let step_counter := env.step_counter + 1
  let action := epsilon_greedy_action_selection env.actions_dict q_values eps sample rand_choice
  let env1 := dispatch env action
  let rc := get_reward env1 action
  let done := rc.2 || decide (step_counter ≥ env.cfg.max_episode_length)
  let new_state := build_state env1.obs env1.finger_layer_scene env1.finger_layer_repr env1.ext_repr
  let env2 := { env1 with
                step_counter := step_counter
                state := new_state
                action_vec := fun i => if i = action then 1 else 0 }
  (env2, { action := action
           next_state := some new_state
           reward := rc.1
           done := done
           correct_label := rc.2 })

/-- The terminal-transition handling of the training loop
(`training_loop_v1.py` lines 79-88): before the transition is pushed to
replay memory, `next_state` is replaced by `None` when `done`. -/
def push_next_state (r : StepResult) : Option CompositeState :=
  if r.done then none else r.next_state

/-- The nine component-declared action names, in claiming order. -/
def namedActions : List String :=
  ["mod_point", "scene_left", "scene_right", "scene_up", "scene_down",
   "repr_left", "repr_right", "repr_up", "repr_down"]

/-- Two objects are separated when no cell of one equals or is
4-adjacent to a cell of the other. -/
def separated (o1 o2 : List Cell) : Prop :=
  ∀ a ∈ o1, ∀ b ∈ o2, a ≠ b ∧ ¬ adjacent a b

/-! ## Concrete instances used in the concrete-run theorems below -/

/-- A concrete configuration: 2×2 grid, one fixed-size object, nine
action codes, episodes of length one, everything deterministic. -/
def cfg9 : EnvConfig :=
  { obs_dim := 2
    max_episode_objects := 1
    max_episode_length := 1
    n_actions := 9
    max_object_size := 1
    default_eps := 1 / 10
    generate_random_nobj := false
    random_object_size := false
    random_finger_position := false }

/-- A constant size stream. -/
def zeroSizes : ℕ → ℕ := fun _ => 0

/-- A constant anchor stream. -/
def zeroAnchors : ℕ → ℕ × ℕ := fun _ => (0, 0)

/-- An anchor stream walking down the diagonal. -/
def diagAnchors : ℕ → ℕ × ℕ := fun t => (t, t)

/-- A concrete environment built by `SingleAgentEnv.init` from `cfg9`
(the generation succeeds, so the option is `some`). -/
def env9 : Option EnvState := SingleAgentEnv.init cfg9 0 zeroSizes zeroAnchors 3 0 0 0 0

/-- The concrete environment state inside `env9`. -/
def env9e : EnvState := env9.get (by decide)

/-- A concrete scene finger on a 2×2 grid at position `(0, 0)`. -/
def fingerW : FingerLayer :=
  (FingerLayer.init "scene" 2 (List.replicate 9 "") false 0 0).1

/-- A concrete all-zero canvas. -/
def extW : ExternalRepresentation :=
  (ExternalRepresentation.init 2 (List.replicate 9 "")).1

/-! ## Lemmas about the claiming loops -/

theorem claimActions_nil_names (d : List String) (k : ℕ) :
    claimActions d [] k = (d, []) := by
  induction d generalizing k with
  | nil => rfl
  | cons v rest ih => simp [claimActions, ih]

theorem claimActions_skip_nonempty (p d : List String) (names : List String) (k : ℕ)
    (hp : ∀ v ∈ p, v ≠ "") :
    claimActions (p ++ d) names k =
      ((p ++ (claimActions d names (k + p.length)).1),
        (claimActions d names (k + p.length)).2) := by
  induction p generalizing k with
  | nil => simp
  | cons v p ih =>
    have hv : v ≠ "" := hp v (by simp)
    have hp2 : ∀ w ∈ p, w ≠ "" := fun w hw => hp w (by simp [hw])
    have harith : k + (v :: p).length = (k + 1) + p.length := by
      simp [List.length_cons]; omega
    rw [harith]
    cases names with
    | nil =>
      simp only [List.cons_append, claimActions, claimActions_nil_names]
      simp
    | cons a as =>
      simp only [List.cons_append, List.append_eq, claimActions, if_neg hv]
      rw [ih (k + 1) hp2]

theorem claimActions_replicate (names : List String) (m k : ℕ)
    (hm : names.length ≤ m) :
    claimActions (List.replicate m "") names k =
      (names ++ List.replicate (m - names.length) "", List.range' k names.length) := by
  induction names generalizing m k with
  | nil => simp [claimActions_nil_names]
  | cons a as ih =>
    cases m with
    | zero => simp at hm
    | succ m =>
      have hm2 : as.length ≤ m := by simpa using hm
      simp only [List.replicate_succ, claimActions, if_pos rfl, ih m (k + 1) hm2]
      simp [List.range'_succ]

theorem fillLabels_skip_nonempty (p d : List String) (l : ℕ)
    (hp : ∀ v ∈ p, v ≠ "") :
    fillLabels (p ++ d) l = p ++ fillLabels d l := by
  induction p with
  | nil => simp
  | cons v p ih =>
    have hv : v ≠ "" := hp v (by simp)
    have hp2 : ∀ w ∈ p, w ≠ "" := fun w hw => hp w (by simp [hw])
    simp [fillLabels, if_neg hv, ih hp2]

theorem fillLabels_replicate (m l : ℕ) :
    fillLabels (List.replicate m "") l =
      (List.range m).map (fun i => toString (l + i)) := by
  induction m generalizing l with
  | zero => simp [fillLabels]
  | succ m ih =>
    rw [List.replicate_succ]
    simp only [fillLabels, if_pos rfl]
    rw [ih (l + 1), List.range_succ_eq_map, List.map_cons, List.map_map]
    have h2 : List.map ((fun i => toString (l + i)) ∘ Nat.succ) (List.range m) =
        List.map (fun i => toString (l + 1 + i)) (List.range m) := by
      apply List.map_congr_left
      intro i hi
      simp only [Function.comp_apply]
      congr 1
      omega
    rw [h2]
    simp

theorem envRegistryNamed_eq (n : ℕ) (h : 9 ≤ n) :
    envRegistryNamed n =
      (namedActions ++ List.replicate (n - 9) "", [0], [1, 2, 3, 4], [5, 6, 7, 8]) := by
  obtain ⟨m, rfl⟩ := Nat.exists_eq_add_of_le h
  have e1 : claimActions (List.replicate (9 + m) "") extActionNames 0 =
      (extActionNames ++ List.replicate (8 + m) "", [0]) := by
    rw [claimActions_replicate extActionNames (9 + m) 0
      (by simp only [extActionNames, List.length_cons, List.length_nil]; omega)]
    have : 9 + m - extActionNames.length = 8 + m := by
      simp only [extActionNames, List.length_cons, List.length_nil]; omega
    rw [this]
    rfl
  have e2 : claimActions (extActionNames ++ List.replicate (8 + m) "")
      (fingerActionNames "scene") 0 =
      (extActionNames ++ (fingerActionNames "scene" ++ List.replicate (4 + m) ""),
        [1, 2, 3, 4]) := by
    rw [claimActions_skip_nonempty extActionNames (List.replicate (8 + m) "")
      (fingerActionNames "scene") 0 (by simp [extActionNames])]
    have hl : 0 + extActionNames.length = 1 := by
      simp only [extActionNames, List.length_cons, List.length_nil]
    rw [hl, claimActions_replicate (fingerActionNames "scene") (8 + m) 1
      (by simp only [fingerActionNames, List.length_cons, List.length_nil]; omega)]
    have : 8 + m - (fingerActionNames "scene").length = 4 + m := by
      simp only [fingerActionNames, List.length_cons, List.length_nil]; omega
    rw [this]
    rfl
  have e3 : claimActions (extActionNames ++ (fingerActionNames "scene" ++
      List.replicate (4 + m) "")) (fingerActionNames "repr") 0 =
      ((extActionNames ++ fingerActionNames "scene") ++
        (fingerActionNames "repr" ++ List.replicate m ""), [5, 6, 7, 8]) := by
    rw [show extActionNames ++ (fingerActionNames "scene" ++ List.replicate (4 + m) "") =
      (extActionNames ++ fingerActionNames "scene") ++ List.replicate (4 + m) "" by
        simp [List.append_assoc]]
    rw [claimActions_skip_nonempty (extActionNames ++ fingerActionNames "scene")
      (List.replicate (4 + m) "") (fingerActionNames "repr") 0
      (by simp [extActionNames, fingerActionNames])]
    have hl : 0 + (extActionNames ++ fingerActionNames "scene").length = 5 := by
      simp only [extActionNames, fingerActionNames, List.length_append,
        List.length_cons, List.length_nil]
    rw [hl, claimActions_replicate (fingerActionNames "repr") (4 + m) 5
      (by simp only [fingerActionNames, List.length_cons, List.length_nil]; omega)]
    have : 4 + m - (fingerActionNames "repr").length = m := by
      simp only [fingerActionNames, List.length_cons, List.length_nil]; omega
    rw [this]
    rfl
  simp only [envRegistryNamed, e1, e2, e3]
  have : 9 + m - 9 = m := by omega
  rw [this]
  rfl

theorem envActionsDict_eq (n : ℕ) (h : 9 ≤ n) :
    envActionsDict n =
      namedActions ++ (List.range (n - 9)).map (fun i => toString (1 + i)) := by
  rw [envActionsDict, envRegistryNamed_eq n h]
  rw [fillLabels_skip_nonempty namedActions (List.replicate (n - 9) "") 1
    (by simp [namedActions])]
  rw [fillLabels_replicate]

/-! ## Lemmas about the scene generator -/

theorem adjacent.symm {a b : Cell} (h : adjacent a b) : adjacent b a := by
  obtain ⟨x, y⟩ := a
  obtain ⟨u, v⟩ := b
  rcases h with h | h | h | h <;> simp_all [adjacent, Prod.ext_iff]

theorem separated_symm {o1 o2 : List Cell} (h : separated o1 o2) : separated o2 o1 := by
  intro a ha b hb
  obtain ⟨hne, hadj⟩ := h b hb a ha
  exact ⟨hne.symm, fun hc => hadj hc.symm⟩

/-- A failed intersection/adjacency check separates the new square from
every already-placed cell. -/
theorem check_false_separated {picture sq : List Cell}
    (h : check_squares_intersection_adjacency picture sq = false) :
    separated picture sq := by
  simp only [check_squares_intersection_adjacency, Bool.or_eq_false_iff,
    decide_eq_false_iff_not] at h
  obtain ⟨hint, hadj⟩ := h
  push_neg at hint hadj
  intro a ha b hb
  obtain ⟨h1, h2, h3, h4⟩ := hadj b hb
  refine ⟨fun hab => hint a ha (by rw [hab]; exact hb), fun hc => ?_⟩
  rcases hc with hc | hc | hc | hc
  · subst hc; exact h3 (by simpa using ha)
  · subst hc; exact h4 (by simpa using ha)
  · subst hc; exact h1 (by simpa using ha)
  · subst hc; exact h2 (by simpa using ha)

theorem place_square_check {fuel obs_dim size : ℕ} {picture : List Cell}
    {anchors : ℕ → ℕ × ℕ} {t : ℕ} {sq : List Cell} {t1 : ℕ}
    (h : place_square fuel obs_dim size picture anchors t = some (sq, t1)) :
    check_squares_intersection_adjacency picture sq = false := by
  induction fuel generalizing t with
  | zero => simp [place_square] at h
  | succ fuel ih =>
    simp only [place_square] at h
    rcases hg : generate_square_anchor (fuel + 1) obs_dim size picture anchors t with
      _ | ⟨p, t2⟩
    · rw [hg] at h; simp at h
    · rw [hg] at h
      simp only at h
      by_cases hc : check_squares_intersection_adjacency picture (squareCells p size) = true
      · rw [if_pos hc] at h
        exact ih h
      · rw [if_neg hc] at h
        simp only [Option.some.injEq, Prod.mk.injEq] at h
        rw [← h.1]
        exact Bool.eq_false_iff.mpr hc

theorem choose_place_check {fuel obs_dim : ℕ} {picture : List Cell}
    {anchors : ℕ → ℕ × ℕ} {size t : ℕ} {sq : List Cell} {t1 : ℕ}
    (h : choose_place fuel obs_dim picture anchors size t = some (some sq, t1)) :
    check_squares_intersection_adjacency picture sq = false := by
  induction size using Nat.strong_induction_on generalizing t with
  | _ size ih =>
    match size with
    | 0 => simp [choose_place] at h
    | size + 1 =>
      simp only [choose_place] at h
      by_cases hfit : check_square_can_fit obs_dim (size + 1) picture = true
      · rw [if_pos hfit] at h
        rcases hp : place_square fuel obs_dim (size + 1) picture anchors t with _ | ⟨sq2, t2⟩
        · rw [hp] at h; simp at h
        · rw [hp] at h
          simp only [Option.map_some', Option.some.injEq, Prod.mk.injEq] at h
          rw [← h.1]
          exact place_square_check hp
      · rw [if_neg hfit] at h
        by_cases hz : size = 0
        · rw [if_pos hz] at h; simp at h
        · rw [if_neg hz] at h
          exact ih size (by omega) h

/-- Cells of flattened object lists. -/
theorem mem_flatten_of_mem {objs : List (List Cell)} {o : List Cell} {a : Cell}
    (ho : o ∈ objs) (ha : a ∈ o) : a ∈ objs.flatten :=
  List.mem_flatten.mpr ⟨o, ho, ha⟩

/-- The object loop keeps the committed objects pairwise separated:
every committed square passed the intersection/adjacency check against
all cells already placed. -/
theorem gen_loop_pairwise {fuel obs_dim max_object_size : ℕ} {random_object_size : Bool}
    {sizes : ℕ → ℕ} {anchors : ℕ → ℕ × ℕ} {n_objects : ℕ} :
    ∀ {r : ℕ} {objs : List (List Cell)} {t : ℕ} {os : List (List Cell)} {label : ℤ},
    gen_loop fuel obs_dim max_object_size random_object_size sizes anchors n_objects
      r objs t = some (os, label) →
    objs.Pairwise separated → os.Pairwise separated := by
  intro r
  induction r with
  | zero =>
    intro objs t os label h hp
    simp only [gen_loop, Option.some.injEq, Prod.mk.injEq] at h
    rw [← h.1]; exact hp
  | succ r ih =>
    intro objs t os label h hp
    simp only [gen_loop] at h
    rcases hc : choose_place fuel obs_dim objs.flatten anchors
        (if random_object_size then sizes (n_objects - r) % max_object_size + 1 else 1) t with
      _ | ⟨osq, t1⟩
    · rw [hc] at h; simp at h
    · rw [hc] at h
      match osq with
      | none =>
        simp only [Option.some.injEq, Prod.mk.injEq] at h
        rw [← h.1]; exact hp
      | some sq =>
        simp only at h
        have hsep : separated objs.flatten sq := check_false_separated (choose_place_check hc)
        refine ih h ?_
        rw [List.pairwise_append]
        refine ⟨hp, List.pairwise_singleton _ _, ?_⟩
        intro o ho b hb
        simp only [List.mem_singleton] at hb
        subst hb
        intro a ha c hc2
        exact hsep a (mem_flatten_of_mem ho ha) c hc2

/-- The object loop reports as label exactly the number of committed
objects (the Python `objects_drawn` arithmetic). -/
theorem gen_loop_label {fuel obs_dim max_object_size : ℕ} {random_object_size : Bool}
    {sizes : ℕ → ℕ} {anchors : ℕ → ℕ × ℕ} {n_objects : ℕ} :
    ∀ {r : ℕ} {objs : List (List Cell)} {t : ℕ} {os : List (List Cell)} {label : ℤ},
    gen_loop fuel obs_dim max_object_size random_object_size sizes anchors n_objects
      r objs t = some (os, label) →
    objs.length + r = n_objects → label = os.length := by
  intro r
  induction r with
  | zero =>
    intro objs t os label h hlen
    simp only [gen_loop, Option.some.injEq, Prod.mk.injEq] at h
    rw [← h.1, ← h.2]
    omega
  | succ r ih =>
    intro objs t os label h hlen
    simp only [gen_loop] at h
    rcases hc : choose_place fuel obs_dim objs.flatten anchors
        (if random_object_size then sizes (n_objects - r) % max_object_size + 1 else 1) t with
      _ | ⟨osq, t1⟩
    · rw [hc] at h; simp at h
    · rw [hc] at h
      match osq with
      | none =>
        simp only [Option.some.injEq, Prod.mk.injEq] at h
        have hn : n_objects - r = objs.length + 1 := by omega
        rw [← h.1, ← h.2, hn]
        push_cast
        omega
      | some sq =>
        simp only at h
        have := ih h (by simp; omega)
        simpa using this

/-! ## Claim theorems -/

/-- Claim C1.  The claim states that `FingerLayer.step` moves the finger
by one clamped cell in the direction named by any of the 4 directional
codes the layer owns.  In the code the registered names carry the
`layer_name` prefix (`"scene_right"`, ...) while `step` compares against
the bare `"right"`/`"left"`/`"up"`/`"down"`, so no branch ever fires: for
every finger layer and every directional code owned by either finger of
an environment with `n_actions ≥ 9`, the position is unchanged and the
one-hot layer is recomputed at the old position.  This contradicts the
claim (and the class's own stated purpose): the finger never moves. -/
theorem finger_step_never_moves (n : ℕ) (hn : 9 ≤ n) (f : FingerLayer) (c : ℕ)
    (hc : c ∈ envSceneCodes n ∨ c ∈ envReprCodes n) :
    (f.step c (envActionsDict n)).pos_x = f.pos_x ∧
    (f.step c (envActionsDict n)).pos_y = f.pos_y ∧
    (f.step c (envActionsDict n)).fingerlayer = oneHot f.pos_x f.pos_y := by
  have hreg := envRegistryNamed_eq n hn
  have hsc : envSceneCodes n = [1, 2, 3, 4] := by rw [envSceneCodes, hreg]
  have hrc : envReprCodes n = [5, 6, 7, 8] := by rw [envReprCodes, hreg]
  have hd := envActionsDict_eq n hn
  rw [hsc, hrc] at hc
  have hstep : ∀ s : String, s ≠ "right" → s ≠ "left" → s ≠ "up" → s ≠ "down" →
      (envActionsDict n).getD c "" = s →
      (f.step c (envActionsDict n)).pos_x = f.pos_x ∧
      (f.step c (envActionsDict n)).pos_y = f.pos_y ∧
      (f.step c (envActionsDict n)).fingerlayer = oneHot f.pos_x f.pos_y := by
    intro s hr hl hu hdn hds
    simp only [FingerLayer.step, hds, if_neg hr, if_neg hl, if_neg hu, if_neg hdn]
    exact ⟨trivial, trivial, trivial⟩
  rcases hc with hc | hc <;> fin_cases hc
  · exact hstep "scene_left" (by decide) (by decide) (by decide) (by decide)
      (by rw [hd]; rfl)
  · exact hstep "scene_right" (by decide) (by decide) (by decide) (by decide)
      (by rw [hd]; rfl)
  · exact hstep "scene_up" (by decide) (by decide) (by decide) (by decide)
      (by rw [hd]; rfl)
  · exact hstep "scene_down" (by decide) (by decide) (by decide) (by decide)
      (by rw [hd]; rfl)
  · exact hstep "repr_left" (by decide) (by decide) (by decide) (by decide)
      (by rw [hd]; rfl)
  · exact hstep "repr_right" (by decide) (by decide) (by decide) (by decide)
      (by rw [hd]; rfl)
  · exact hstep "repr_up" (by decide) (by decide) (by decide) (by decide)
      (by rw [hd]; rfl)
  · exact hstep "repr_down" (by decide) (by decide) (by decide) (by decide)
      (by rw [hd]; rfl)

/-- Concrete run of `finger_step_never_moves`: code 2 resolves to
`"scene_right"` and the scene finger of a 2×2 grid stays at `(0, 0)`. -/
theorem finger_step_never_moves_witness :
    (2 ∈ envSceneCodes 9 ∨ 2 ∈ envReprCodes 9) ∧
    ((fingerW.step 2 (envActionsDict 9)).pos_x = fingerW.pos_x ∧
     (fingerW.step 2 (envActionsDict 9)).pos_y = fingerW.pos_y ∧
     (fingerW.step 2 (envActionsDict 9)).fingerlayer = oneHot fingerW.pos_x fingerW.pos_y) :=
  ⟨Or.inl (by decide), finger_step_never_moves 9 (by decide) fingerW 2 (Or.inl (by decide))⟩

/-- Claim C2.  The claim states that code-to-component ownership
survives `reset()`.  In the code, `reset` re-constructs the components
against the already-full action dictionary, so their claiming loops find
no empty slot: after one reset every `action_codes` set is empty and a
step on a previously-owned code dispatches to no component at all
(the `elif` chain of lines 176-188 falls through).  Concretely: in the
environment `env9`, action code 1 is owned by the scene finger at
construction, and after one `reset` the dispatch chain finds no owner
and all three components own no codes. -/
theorem reset_empties_action_codes :
    (env9.map fun e =>
      (SingleAgentEnv.reset e 0 zeroSizes zeroAnchors 3 0 0 0 0).map fun e2 =>
        (dispatch_target e 1, dispatch_target e2 1)) =
      some (some (DispatchTarget.sceneFinger, DispatchTarget.noOwner)) ∧
    (env9.map fun e =>
      (SingleAgentEnv.reset e 0 zeroSizes zeroAnchors 3 0 0 0 0).map fun e2 =>
        (e2.finger_layer_scene.action_codes, e2.finger_layer_repr.action_codes,
         e2.ext_repr.action_codes)) =
      some (some ([], [], [])) := by
  constructor
  · decide
  · decide

/-- Claim C3, counterexample.  The claim states that `step` returns
`none` as next state when the episode ends.  In the code line 213 always
returns `torch.Tensor(self.state)`: in the concrete environment `env9`
(with `max_episode_length = 1`) the first step ends the episode
(`done = true`) yet the returned next state is not `none`. -/
theorem step_done_returns_some_state :
    (env9.map fun e =>
      let r := (SingleAgentEnv.step e [1, 0, 0, 0, 0, 0, 0, 0, 0] 0 1 0
        (fun _ _ => (0, false))).2
      (r.done, r.next_state.isSome)) = some (true, true) := by
  decide

/-- Claim C3, amended.  `SingleAgentEnv.step` always returns the freshly
rebuilt composite state (never `none`), and it is the training loop
(`training_loop_v1.py` lines 81-85) that replaces the next state by
`none` before the transition is stored, so the *stored* transition of a
terminal step has next state `none`. -/
theorem step_state_some_and_stored_none (env : EnvState) (q_values : List ℚ)
    (eps sample : ℚ) (rand_choice : ℕ) (get_reward : EnvState → ℕ → ℚ × Bool)
    (hdone : (SingleAgentEnv.step env q_values eps sample rand_choice get_reward).2.done
      = true) :
    (SingleAgentEnv.step env q_values eps sample rand_choice get_reward).2.next_state.isSome
      = true ∧
    push_next_state (SingleAgentEnv.step env q_values eps sample rand_choice get_reward).2
      = none := by
  refine ⟨rfl, ?_⟩
  simp [push_next_state, hdone]

/-- Concrete run of `step_state_some_and_stored_none` on `env9e`. -/
theorem step_state_some_and_stored_none_witness :
    ((SingleAgentEnv.step env9e [1, 0, 0, 0, 0, 0, 0, 0, 0] 0 1 0
        (fun _ _ => (0, false))).2.done = true) ∧
    ((SingleAgentEnv.step env9e [1, 0, 0, 0, 0, 0, 0, 0, 0] 0 1 0
        (fun _ _ => (0, false))).2.next_state.isSome = true ∧
     push_next_state (SingleAgentEnv.step env9e [1, 0, 0, 0, 0, 0, 0, 0, 0] 0 1 0
        (fun _ _ => (0, false))).2 = none) :=
  ⟨by decide, step_state_some_and_stored_none env9e _ _ _ _ _ (by decide)⟩

/-- Claim C4.  For every scene the generator produces (any grid size,
object count, sizes and random streams): cells of distinct committed
objects are never equal and never 4-adjacent — each square is committed
only after `_check_squares_intersection_adjacency` clears it against
all previously committed cells. -/
theorem generated_objects_separated (obs_dim max_object_size max_episode_objects : ℕ)
    (generate_random_nobj random_object_size : Bool) (nobj_seed : ℕ) (sizes : ℕ → ℕ)
    (anchors : ℕ → ℕ × ℕ) (fuel : ℕ) (os : List (List Cell)) (label : ℤ)
    (hgen : generate_observation obs_dim max_object_size max_episode_objects
      generate_random_nobj random_object_size nobj_seed sizes anchors fuel
      = some (os, label)) :
    ∀ (i j : Fin os.length), i ≠ j → ∀ a ∈ os.get i, ∀ b ∈ os.get j,
      a ≠ b ∧ ¬ adjacent a b := by
  have hp : os.Pairwise separated := by
    unfold generate_observation at hgen
    exact gen_loop_pairwise hgen List.Pairwise.nil
  rw [List.pairwise_iff_get] at hp
  intro i j hij a ha b hb
  rcases lt_trichotomy i j with hlt | heq | hgt
  · exact hp i j hlt a ha b hb
  · exact absurd heq hij
  · exact separated_symm (hp j i hgt) a ha b hb

/-- Concrete run of `generated_objects_separated`: two isolated cells on
a 4×4 grid. -/
theorem generated_objects_separated_witness :
    (generate_observation 4 1 2 false false 0 zeroSizes diagAnchors 12 =
      some ([[(0, 0)], [(1, 1)]], 2)) ∧
    (∀ (i j : Fin ([[((0 : ℤ), (0 : ℤ))], [(1, 1)]] : List (List Cell)).length),
      i ≠ j → ∀ a ∈ ([[((0 : ℤ), (0 : ℤ))], [(1, 1)]] : List (List Cell)).get i,
      ∀ b ∈ ([[((0 : ℤ), (0 : ℤ))], [(1, 1)]] : List (List Cell)).get j,
      a ≠ b ∧ ¬ adjacent a b) :=
  ⟨by decide, generated_objects_separated 4 1 2 false false 0 zeroSizes diagAnchors 12
    [[(0, 0)], [(1, 1)]] 2 (by decide)⟩

/-- Claim C5.  For every run of the generator that returns, the reported
label equals the number of objects actually committed — also on
early-ending (placement-exhausted) runs, which still return a scene
(`some ...`, a warning rather than an exception). -/
theorem generated_label_counts_committed (obs_dim max_object_size max_episode_objects : ℕ)
    (generate_random_nobj random_object_size : Bool) (nobj_seed : ℕ) (sizes : ℕ → ℕ)
    (anchors : ℕ → ℕ × ℕ) (fuel : ℕ) (os : List (List Cell)) (label : ℤ)
    (hgen : generate_observation obs_dim max_object_size max_episode_objects
      generate_random_nobj random_object_size nobj_seed sizes anchors fuel
      = some (os, label)) : label = os.length := by
  unfold generate_observation at hgen
  exact gen_loop_label hgen (by simp)

/-- Concrete degraded run of `generated_label_counts_committed`: two
objects requested on a 1×1 grid; the second cannot be placed, the run
still returns (`some`), and the label equals the single committed
object. -/
theorem generated_label_counts_committed_witness :
    (generate_observation 1 1 2 false false 0 zeroSizes zeroAnchors 4 =
      some ([[(0, 0)]], 1)) ∧
    (1 : ℤ) = ([[((0 : ℤ), (0 : ℤ))]] : List (List Cell)).length :=
  ⟨by decide, generated_label_counts_committed 1 1 2 false false 0 zeroSizes zeroAnchors 4
    [[(0, 0)]] 1 (by decide)⟩

/-- Claim C6.  For every `n_actions ≥ 9`: after construction every code
in `[0, n_actions)` carries exactly one name — the nine component names
on codes 0-8 (external representation first, then the two fingers, in
claiming order) and the numeric labels `"1", "2", ...` on the remaining
codes in ascending order — and the three components' claimed code lists
are `[0]`, `[1,2,3,4]`, `[5,6,7,8]`: disjoint, and together with the
label codes exactly `[0, n_actions)`. -/
theorem action_space_partition (n : ℕ) (h : 9 ≤ n) :
    envActionsDict n =
      namedActions ++ (List.range (n - 9)).map (fun i => toString (1 + i)) ∧
    (envActionsDict n).length = n ∧
    envExtCodes n = [0] ∧ envSceneCodes n = [1, 2, 3, 4] ∧
    envReprCodes n = [5, 6, 7, 8] := by
  have hreg := envRegistryNamed_eq n h
  refine ⟨envActionsDict_eq n h, ?_, ?_, ?_, ?_⟩
  · rw [envActionsDict_eq n h]
    simp only [List.length_append, List.length_map, List.length_range, namedActions,
      List.length_cons, List.length_nil]
    omega
  · rw [envExtCodes, hreg]
  · rw [envSceneCodes, hreg]
  · rw [envReprCodes, hreg]

/-- Concrete run of `action_space_partition` at `n_actions = 12`. -/
theorem action_space_partition_witness :
    9 ≤ 12 ∧
    (envActionsDict 12 =
      namedActions ++ (List.range (12 - 9)).map (fun i => toString (1 + i)) ∧
    (envActionsDict 12).length = 12 ∧
    envExtCodes 12 = [0] ∧ envSceneCodes 12 = [1, 2, 3, 4] ∧
    envReprCodes 12 = [5, 6, 7, 8]) :=
  ⟨by decide, action_space_partition 12 (by decide)⟩

/-- Claim C7.  The claim states that softmax selection hard-fails for
`temperature < 0` (true: the explicit `raise`) and that for
`temperature == 0` it returns, without error, the epsilon-greedy choice
with `eps = 0`.  The second half fails on the code: the branch calls
`self.eps_greedy_modified`, a method that does not exist (the defined
method is `_epsilon_greedy_action_selection`), so the call raises
`AttributeError` instead of returning the greedy action (which for
`q_values = [0, 1]` would be code 1). -/
theorem softmax_zero_temperature_raises :
    softmax_action_selection [0, 1] (-1) 0 =
      Except.error "The temperature value must be greater than or equal to 0 " ∧
    softmax_action_selection [0, 1] 0 0 =
      Except.error
        "AttributeError: SingleAgentEnv object has no attribute eps_greedy_modified" ∧
    argmaxQ [0, 1] = 1 := by
  refine ⟨rfl, rfl, by decide⟩

/-- Claim C8, counterexample.  The claim states that epsilon-greedy with
`eps = 0` returns `argmax(q_values)` for *every* outcome of the internal
draw.  The code explores when `sample > eps` fails, and `random.random()`
can return exactly `0.0`: with `sample = 0` the selection takes the
uniform branch (here returning code 1), differing from `argmax = 0` and
from a second run with `sample = 1`. -/
theorem eps_greedy_zero_sample_zero_explores :
    epsilon_greedy_action_selection (envActionsDict 9) [5, 0, 0, 0, 0, 0, 0, 0, 0]
      0 0 10 = 1 ∧
    argmaxQ [5, 0, 0, 0, 0, 0, 0, 0, 0] = 0 ∧
    epsilon_greedy_action_selection (envActionsDict 9) [5, 0, 0, 0, 0, 0, 0, 0, 0]
      0 1 10 = 0 := by
  decide

/-- Claim C8, amended.  Epsilon-greedy with `eps = 0` returns
`argmax(q_values)` for every outcome of the draw with `sample > 0`; only
the probability-zero draw `sample = 0` falls into the uniform branch. -/
theorem eps_greedy_zero_argmax_of_sample_pos (actions_dict : List String)
    (q_values : List ℚ) (sample : ℚ) (rand_choice : ℕ) (h : 0 < sample) :
    epsilon_greedy_action_selection actions_dict q_values 0 sample rand_choice
      = argmaxQ q_values := by
  simp [epsilon_greedy_action_selection, h]

/-- Concrete run of `eps_greedy_zero_argmax_of_sample_pos`. -/
theorem eps_greedy_zero_argmax_witness :
    (0 : ℚ) < 1 ∧
    epsilon_greedy_action_selection (envActionsDict 9) [5, 0, 0, 0, 0, 0, 0, 0, 0]
      0 1 10 = argmaxQ [5, 0, 0, 0, 0, 0, 0, 0, 0] :=
  ⟨by norm_num, eps_greedy_zero_argmax_of_sample_pos (envActionsDict 9)
    [5, 0, 0, 0, 0, 0, 0, 0, 0] 1 10 (by norm_num)⟩

/-- Claim C9.  With exponential decay enabled, the epsilon used by
`step` at episode `t` is exactly
`max(steepness · decay^t / steepness, 1e-6)` with
`decay = exp(-ln(steepness) / n_episodes_per_phase · 6)`, which for
nonzero steepness equals `max(decay^t, 1e-6)`. -/
theorem step_eps_exp_decay_formula (default_eps exp_dec_steepness n_episodes_per_phase : ℝ)
    (t : ℕ) (hs : exp_dec_steepness ≠ 0) :
    step_eps true default_eps exp_dec_steepness n_episodes_per_phase t =
      max (exp_dec_steepness *
        Real.exp (-Real.log exp_dec_steepness / n_episodes_per_phase * 6) ^ t /
        exp_dec_steepness) 1e-6 ∧
    step_eps true default_eps exp_dec_steepness n_episodes_per_phase t =
      max (Real.exp (-Real.log exp_dec_steepness / n_episodes_per_phase * 6) ^ t)
        1e-6 := by
  constructor
  · rfl
  · show max (get_exp_decaying_eps exp_dec_steepness n_episodes_per_phase t) 1e-6 = _
    rw [get_exp_decaying_eps, mul_div_cancel_left₀ _ hs]

/-- Concrete run of `step_eps_exp_decay_formula` with steepness 10. -/
theorem step_eps_exp_decay_witness :
    ((10 : ℝ) ≠ 0) ∧
    (step_eps true 0 10 40000 3 =
      max ((10 : ℝ) * Real.exp (-Real.log 10 / 40000 * 6) ^ 3 / 10) 1e-6 ∧
     step_eps true 0 10 40000 3 =
      max (Real.exp (-Real.log 10 / 40000 * 6) ^ 3) 1e-6) :=
  ⟨by norm_num, step_eps_exp_decay_formula 0 10 40000 3 (by norm_num)⟩

/-- Claim C10.  On a canvas whose cells are all 0 or 1, `draw_point`
turns a 0 cell into 1, leaves a 1 cell at 1 (marks never revert), and is
idempotent: marking the same position twice equals marking it once. -/
theorem draw_point_monotone_idempotent (e : ExternalRepresentation) (pos : ℕ × ℕ)
    (h : ∀ i j, e.external_representation i j = 0 ∨ e.external_representation i j = 1) :
    (e.external_representation pos.1 pos.2 = 0 →
      (e.draw_point pos).external_representation pos.1 pos.2 = 1) ∧
    (e.external_representation pos.1 pos.2 = 1 →
      (e.draw_point pos).external_representation pos.1 pos.2 = 1) ∧
    (e.draw_point pos).draw_point pos = e.draw_point pos := by
  refine ⟨?_, ?_, ?_⟩
  · intro hv
    simp [ExternalRepresentation.draw_point, hv]
  · intro hv
    simp [ExternalRepresentation.draw_point, hv]
  · obtain ⟨ld, g, ac⟩ := e
    simp only [ExternalRepresentation.draw_point, ExternalRepresentation.mk.injEq,
      and_true, true_and]
    funext i j
    by_cases hij : i = pos.1 ∧ j = pos.2
    · obtain ⟨hi, hj⟩ := hij
      subst hi
      subst hj
      rcases h pos.1 pos.2 with hv | hv
      · replace hv : g pos.1 pos.2 = 0 := hv
        simp only [and_self, if_true, hv]
        norm_num [abs_neg, abs_one, abs_zero]
      · replace hv : g pos.1 pos.2 = 1 := hv
        simp only [and_self, if_true, hv]
        norm_num [abs_neg, abs_one, abs_zero]
    · simp only [if_neg hij]

/-- Concrete run of `draw_point_monotone_idempotent` on the zero canvas. -/
theorem draw_point_monotone_idempotent_witness :
    (∀ i j, extW.external_representation i j = 0 ∨
      extW.external_representation i j = 1) ∧
    ((extW.external_representation 0 0 = 0 →
      (extW.draw_point (0, 0)).external_representation 0 0 = 1) ∧
     (extW.external_representation 0 0 = 1 →
      (extW.draw_point (0, 0)).external_representation 0 0 = 1) ∧
     (extW.draw_point (0, 0)).draw_point (0, 0) = extW.draw_point (0, 0)) :=
  ⟨fun _ _ => Or.inl rfl,
    draw_point_monotone_idempotent extW (0, 0) (fun _ _ => Or.inl rfl)⟩

end RLCounting
